import Mathlib

/-!
Verification of the Cluster Reporter (src/main.go).

The program polls a Kubernetes cluster: each loop iteration lists pods,
namespaces, nodes, events and persistent volume claims, prints counts and
per-claim phase violations, then fetches one specific pod and prints its
detail.  We embed each helper as a pure function from the collaborator's
response to the list of printed lines, the loop iteration as the
concatenation of those outputs, and the API calls an iteration issues as an
explicit operation trace.
-/

namespace ClusterReporter

/-- The `metav1.Status` carried by a structured API error: its reason, HTTP
code and message. -/
structure Status where
  reason : String
  code : Nat
  message : String
deriving DecidableEq, Repr

/-- An error returned by the collaborator client: either a structured
`*errors.StatusError` carrying a `metav1.Status`, or any other
transport/client error carrying only its text. -/
inductive K8sError where
  | statusError (status : Status)
  | otherError (msg : String)
deriving DecidableEq, Repr

/-- `err.Error()` (what `%v` prints for the error).  A `StatusError`'s
`Error()` returns its status message; a plain error returns its text. -/
def K8sError.errorString : K8sError → String
  | .statusError s => s.message
  | .otherError m => m

/-- The status reasons known to the collaborator's error predicates
(`knownReasons` in k8s.io/apimachinery/pkg/api/errors). -/
def knownReasons : List String :=
  ["Unauthorized", "Forbidden", "NotFound", "AlreadyExists", "Conflict",
   "Gone", "Invalid", "ServerTimeout", "Timeout", "TooManyRequests",
   "BadRequest", "MethodNotAllowed", "NotAcceptable",
   "RequestEntityTooLarge", "UnsupportedMediaType", "InternalError",
   "Expired", "ServiceUnavailable"]

/-- The collaborator's distinguished not-found condition
(`errors.IsNotFound` from k8s.io/apimachinery): a structured status error
whose reason is `NotFound`, or whose reason is unknown while its HTTP code
is 404.  A non-structured error is never a not-found condition. -/
def isNotFound : K8sError → Bool
  | .statusError s =>
      s.reason == "NotFound" || (!(knownReasons.contains s.reason) && s.code == 404)
  | .otherError _ => false

/-- A workload instance ("pod"): the fields src/main.go reads. -/
structure Pod where
  name : String
  namespaceName : String
  statusPhase : String
  podIP : String
  nodeName : String
deriving DecidableEq, Repr

/-- A namespace; the program only counts them. -/
structure KNamespace where
  name : String
deriving DecidableEq, Repr

/-- An execution node; the program only counts them. -/
structure KNode where
  name : String
deriving DecidableEq, Repr

/-- A cluster event: counted only.  We keep its timestamp (seconds) to be
able to speak about time windows the code does not apply. -/
structure KEvent where
  name : String
  lastTimestamp : Int
deriving DecidableEq, Repr

/-- A persistent volume claim: its identity and status phase. -/
structure PVC where
  name : String
  namespaceName : String
  statusPhase : String
deriving DecidableEq, Repr

/-- `corev1.ClaimBound`, the single expected claim phase. -/
def ClaimBound : String := "Bound"

/-- `NoNodesInKubernetes{}.Error()` (src/main.go lines 18-23). -/
def NoNodesInKubernetesError : String := "Kubernetes cluster'ında hiç node yok"

/-- `PersistentVolumeClaimNotInStatus{pvc, phase}.Error()`
(src/main.go lines 25-33). -/
def PersistentVolumeClaimNotInStatusError (pvc : PVC) (phase : String) : String :=
  "PersistentVolumeClaim " ++ pvc.name ++ " beklenen " ++ phase ++ " durumunda değil"

/-- `checkPods` (src/main.go lines 72-79): on error one diagnostic line, on
success the count line over `len(pods.Items)`. -/
def checkPods (res : Except K8sError (List Pod)) : List String :=
  match res with
  | .error e => ["Pod'ları listelerken hata oluştu: " ++ e.errorString]
  | .ok pods => ["Cluster'da " ++ toString pods.length ++ " pod var"]

/-- `checkNamespaces` (src/main.go lines 81-88). -/
def checkNamespaces (res : Except K8sError (List KNamespace)) : List String :=
  match res with
  | .error e => ["Namespace'leri listelerken hata oluştu: " ++ e.errorString]
  | .ok nss => ["Cluster'da " ++ toString nss.length ++ " namespace var"]

/-- `checkNodes` (src/main.go lines 90-101): zero nodes print the
distinguished message instead of the numeric count line. -/
def checkNodes (res : Except K8sError (List KNode)) : List String :=
  match res with
  | .error e => ["Node'ları listelerken hata oluştu: " ++ e.errorString]
  | .ok nodes =>
      if nodes.length == 0 then
        [NoNodesInKubernetesError]
      else
        ["Cluster'da " ++ toString nodes.length ++ " node var"]

/-- `checkEvents` (src/main.go lines 103-110): the count of all returned
events, printed under a "last hour" caption. -/
def checkEvents (res : Except K8sError (List KEvent)) : List String :=
  match res with
  | .error e => ["Event'leri listelerken hata oluştu: " ++ e.errorString]
  | .ok events => ["Son 1 saatte " ++ toString events.length ++ " event var"]

/-- The per-claim loop of `checkPersistentVolumeClaims`
(src/main.go lines 120-126): one violation line for each claim whose phase
is not `ClaimBound`, in list order. -/
def pvcViolationLines : List PVC → List String
  | [] => []
  | pvc :: rest =>
      if pvc.statusPhase != ClaimBound then
        PersistentVolumeClaimNotInStatusError pvc ClaimBound :: pvcViolationLines rest
      else
        pvcViolationLines rest

/-- `checkPersistentVolumeClaims` (src/main.go lines 112-127): the total
count line first, then the per-claim violation lines. -/
def checkPersistentVolumeClaims (res : Except K8sError (List PVC)) : List String :=
  match res with
  | .error e => ["PersistentVolumeClaim'leri listelerken hata oluştu: " ++ e.errorString]
  | .ok pvcs =>
      ("Cluster'da " ++ toString pvcs.length ++ " PersistentVolumeClaim var")
        :: pvcViolationLines pvcs

/-- `checkSpecificPod` (src/main.go lines 129-143): the four-way branch on
the result of `Pods(namespace).Get(podName)`.  The not-found test comes
first, then the `*errors.StatusError` type assertion, then any other
error, then success. -/
def checkSpecificPod (res : Except K8sError Pod) (nsName podName : String) : List String :=
  match res with
  | .error e =>
      if isNotFound e then
        ["Pod " ++ podName ++ " namespace " ++ nsName ++ " içinde bulunamadı"]
      else
        match e with
        | .statusError s =>
            ["Pod " ++ podName ++ " namespace " ++ nsName ++ " içinde alınan hata: " ++ s.message]
        | .otherError m =>
            ["Pod bilgisi alınırken hata oluştu: " ++ m]
  | .ok pod =>
      ["Pod " ++ podName ++ " namespace " ++ nsName ++ " içinde bulundu",
       "Pod durumu: " ++ pod.statusPhase,
       "Pod IP: " ++ pod.podIP,
       "Node: " ++ pod.nodeName]

/-- One snapshot of collaborator responses: what each of the six calls an
iteration makes would return. -/
structure ClusterResponses where
  listPods : Except K8sError (List Pod)
  listNamespaces : Except K8sError (List KNamespace)
  listNodes : Except K8sError (List KNode)
  listEvents : Except K8sError (List KEvent)
  listPVCs : Except K8sError (List PVC)
  getPod : String → String → Except K8sError Pod

/-- The lines one poll-loop iteration prints (src/main.go lines 54-68):
header, the five checks in order, the detail header, the specific-pod
check for the fixed namespace/pod pair, and the separator.  `Println` of a
string starting with a newline yields an empty line plus the text. -/
def iterationLines (c : ClusterResponses) (nsName podName : String) : List String :=
  ["Cluster Durumu:"]
    ++ checkPods c.listPods
    ++ checkNamespaces c.listNamespaces
    ++ checkNodes c.listNodes
    ++ checkEvents c.listEvents
    ++ checkPersistentVolumeClaims c.listPVCs
    ++ ["", "Detaylı pod kontrolü:"]
    ++ checkSpecificPod (c.getPod nsName podName) nsName podName
    ++ ["", "-----------------------------------"]

/-- The hardcoded namespace of the specific pod (src/main.go line 63). -/
def defaultNamespace : String := "default"

/-- The hardcoded pod name of the specific check (src/main.go line 64). -/
def defaultPodName : String := "alpine-deployment-548dbddc9b-dnq9r"

/-- The list options every list call passes: the zero `metav1.ListOptions`,
so no field or label selector (no time or other filtering). -/
structure ListOptions where
  labelSelector : String
  fieldSelector : String
deriving DecidableEq, Repr

/-- The zero `metav1.ListOptions{}` used by all five list calls. -/
def emptyListOptions : ListOptions := ⟨"", ""⟩

/-- An operation the collaborator client can perform against the cluster.
The vocabulary contains writes so that we can state that the program never
issues one. -/
inductive ApiOp where
  | listAll (kind nsScope : String) (opts : ListOptions)
  | getOne (kind nsScope name : String)
  | createOne (kind nsScope : String)
  | updateOne (kind nsScope name : String)
  | deleteOne (kind nsScope name : String)
deriving DecidableEq, Repr

/-- Whether an operation is a pure read (list or get). -/
def ApiOp.isRead : ApiOp → Bool
  | .listAll .. => true
  | .getOne .. => true
  | .createOne .. => false
  | .updateOne .. => false
  | .deleteOne .. => false

/-- The API operations one iteration issues, in source order (each check
makes exactly one unconditional call at its start; `""` means
all-namespaces or cluster scope). -/
def iterationOps (nsName podName : String) : List ApiOp :=
  [.listAll "pods" "" emptyListOptions,
   .listAll "namespaces" "" emptyListOptions,
   .listAll "nodes" "" emptyListOptions,
   .listAll "events" "" emptyListOptions,
   .listAll "persistentvolumeclaims" "" emptyListOptions,
   .getOne "pods" nsName podName]

/-- The `*rest.Config` produced by `clientcmd.BuildConfigFromFlags`;
only its role as the input to client construction matters here. -/
structure RestConfig where
  host : String
deriving DecidableEq, Repr

/-- The outcome of running `main` with a bounded number of loop
iterations: either the panic message of a bootstrap failure (with no
output), or the concatenated iteration output. -/
structure MainRun where
  panicMsg : Option String
  outputLines : List String
deriving DecidableEq, Repr

/-- `main` (src/main.go lines 35-69) with the loop cut at `n` iterations:
`BuildConfigFromFlags` and `NewForConfig` each `panic(err.Error())` on
failure, before any iteration runs; otherwise the loop body repeats. -/
def runMain (buildConfig : Except String RestConfig)
    (newForConfig : RestConfig → Except String ClusterResponses)
    (n : Nat) : MainRun :=
  match buildConfig with
  | .error e => ⟨some e, []⟩
  | .ok cfg =>
      match newForConfig cfg with
      | .error e => ⟨some e, []⟩
      | .ok c =>
          ⟨none, (List.replicate n (iterationLines c defaultNamespace defaultPodName)).flatten⟩

/-- The poll loop run over a list of per-iteration collaborator snapshots:
each snapshot yields one report. -/
def runLoop (snaps : List ClusterResponses) (nsName podName : String) : List (List String) :=
  snaps.map (fun c => iterationLines c nsName podName)

/-- Follows the spec's words, for comparison only: the events "from the
last hour" before `now` (timestamps in seconds).  The code computes no such
window. -/
def specEventsInLastHour (now : Int) (events : List KEvent) : List KEvent :=
  events.filter (fun ev => now - 3600 ≤ ev.lastTimestamp)

/-- A sample healthy snapshot, used to instantiate closed statements. -/
def sampleResponses : ClusterResponses where
  listPods := .ok [⟨"a", "default", "Running", "10.0.0.5", "n1"⟩]
  listNamespaces := .ok [⟨"default"⟩]
  listNodes := .ok [⟨"n1"⟩]
  listEvents := .ok [⟨"e1", 0⟩]
  listPVCs := .ok [⟨"pvc1", "default", "Pending"⟩]
  getPod := fun _ _ => .error (.statusError ⟨"NotFound", 404, "pod not found"⟩)

/-- The sample snapshot with the namespace listing failing. -/
def failingNamespacesResponses : ClusterResponses :=
  { sampleResponses with listNamespaces := .error (.otherError "connection refused") }

/-- The sample snapshot with the pod listing failing. -/
def failingPodsResponses : ClusterResponses :=
  { sampleResponses with listPods := .error (.otherError "connection refused") }

/-- The sample snapshot with the node listing failing. -/
def failingNodesResponses : ClusterResponses :=
  { sampleResponses with listNodes := .error (.otherError "connection refused") }

/-- The sample snapshot with the event listing failing. -/
def failingEventsResponses : ClusterResponses :=
  { sampleResponses with listEvents := .error (.otherError "connection refused") }

/-- The sample snapshot with the volume-claim listing failing. -/
def failingPVCsResponses : ClusterResponses :=
  { sampleResponses with listPVCs := .error (.otherError "connection refused") }

/-- The sample snapshot with the specific-pod get failing generically. -/
def failingGetResponses : ClusterResponses :=
  { sampleResponses with getPod := fun _ _ => .error (.otherError "timeout") }

/-! ### String helper lemmas -/

/-- String append is associative (at the data level). -/
theorem strAppend_assoc (a b c : String) : a ++ b ++ c = a ++ (b ++ c) := by
  apply String.ext
  simp [String.data_append]

/-- Appending the same string on the left is cancellable. -/
theorem strAppend_left_cancel {a x y : String} (h : a ++ x = a ++ y) : x = y := by
  apply String.ext
  have hd := congrArg String.data h
  simp only [String.data_append] at hd
  exact List.append_cancel_left hd

/-- Two strings whose first characters differ are different. -/
theorem str_head_ne {x y : String} (c₁ c₂ : Char)
    (h₁ : x.data.head? = some c₁) (h₂ : y.data.head? = some c₂)
    (hne : c₁ ≠ c₂) : x ≠ y := by
  intro hEq
  subst hEq
  rw [h₁] at h₂
  exact hne (Option.some.inj h₂)

/-- The first character of `a ++ s` is the first character of a nonempty `a`. -/
theorem strAppend_data_head (a s : String) (c : Char)
    (h : a.data.head? = some c) : (a ++ s).data.head? = some c := by
  rw [String.data_append]
  cases ha : a.data with
  | nil => rw [ha] at h; cases h
  | cons x l =>
      rw [ha] at h
      simp only [List.head?_cons, Option.some.injEq] at h
      simp [h]

/-- The per-claim loop prints exactly one violation line for each claim
whose phase is not `ClaimBound`, in order, and none for bound claims. -/
theorem pvcViolationLines_eq_filter_map (pvcs : List PVC) :
    pvcViolationLines pvcs =
      (pvcs.filter (fun p => p.statusPhase != ClaimBound)).map
        (fun p => PersistentVolumeClaimNotInStatusError p ClaimBound) := by
  induction pvcs with
  | nil => rfl
  | cons p rest ih =>
      cases h : (p.statusPhase != ClaimBound) with
      | true => simp [pvcViolationLines, List.filter_cons, h, ih]
      | false => simp [pvcViolationLines, List.filter_cons, h, ih]

/-! ### Claims -/

/-- C1: for every resource counter (pods, namespaces, events, persistent
volume claims), when the list succeeds with a collection of N items, the
printed count line reports exactly N. -/
theorem C1_counters_report_exact_count
    (pods : List Pod) (nss : List KNamespace) (events : List KEvent) (pvcs : List PVC)
    (n₁ n₂ n₃ n₄ : Nat)
    (h₁ : pods.length = n₁) (h₂ : nss.length = n₂)
    (h₃ : events.length = n₃) (h₄ : pvcs.length = n₄) :
    checkPods (.ok pods) = ["Cluster'da " ++ toString n₁ ++ " pod var"] ∧
    checkNamespaces (.ok nss) = ["Cluster'da " ++ toString n₂ ++ " namespace var"] ∧
    checkEvents (.ok events) = ["Son 1 saatte " ++ toString n₃ ++ " event var"] ∧
    (checkPersistentVolumeClaims (.ok pvcs)).head? =
      some ("Cluster'da " ++ toString n₄ ++ " PersistentVolumeClaim var") := by
  subst h₁ h₂ h₃ h₄
  exact ⟨rfl, rfl, rfl, rfl⟩

/-- Witness for C1 at concrete collections of sizes 2, 1, 1, 1. -/
theorem C1_counters_report_exact_count_witness :
    checkPods (.ok [⟨"a", "default", "Running", "10.0.0.5", "n1"⟩,
                    ⟨"b", "default", "Pending", "", ""⟩]) =
      ["Cluster'da " ++ toString 2 ++ " pod var"] ∧
    checkNamespaces (.ok [⟨"default"⟩]) =
      ["Cluster'da " ++ toString 1 ++ " namespace var"] ∧
    checkEvents (.ok [⟨"e1", 0⟩]) =
      ["Son 1 saatte " ++ toString 1 ++ " event var"] ∧
    (checkPersistentVolumeClaims (.ok [⟨"pvc1", "default", "Pending"⟩])).head? =
      some ("Cluster'da " ++ toString 1 ++ " PersistentVolumeClaim var") :=
  C1_counters_report_exact_count _ _ _ _ 2 1 1 1 rfl rfl rfl rfl

/-- C2: the volume-claim auditor prints the total-count line over the full
list length first, followed by exactly one violation line (naming the
claim and the expected phase) for each claim whose phase is not bound and
none for bound claims; the number of violation lines equals the number of
non-bound claims. -/
theorem C2_pvc_auditor (pvcs : List PVC) :
    checkPersistentVolumeClaims (.ok pvcs) =
      ("Cluster'da " ++ toString pvcs.length ++ " PersistentVolumeClaim var")
        :: (pvcs.filter (fun p => p.statusPhase != ClaimBound)).map
             (fun p => PersistentVolumeClaimNotInStatusError p ClaimBound) ∧
    (pvcViolationLines pvcs).length =
      (pvcs.filter (fun p => p.statusPhase != ClaimBound)).length := by
  constructor
  · simp [checkPersistentVolumeClaims, pvcViolationLines_eq_filter_map]
  · rw [pvcViolationLines_eq_filter_map, List.length_map]

/-- C3: the specific-pod inspector yields exactly its own message for each
of the four collaborator outcomes: not found, structured API error (that
is not a not-found), any other error, and success with its four detail
lines. -/
theorem C3_specific_pod_inspector (nsName podName : String) :
    (∀ e : K8sError, isNotFound e = true →
        checkSpecificPod (.error e) nsName podName =
          ["Pod " ++ podName ++ " namespace " ++ nsName ++ " içinde bulunamadı"]) ∧
    (∀ s : Status, isNotFound (.statusError s) = false →
        checkSpecificPod (.error (.statusError s)) nsName podName =
          ["Pod " ++ podName ++ " namespace " ++ nsName ++ " içinde alınan hata: " ++ s.message]) ∧
    (∀ m : String,
        checkSpecificPod (.error (.otherError m)) nsName podName =
          ["Pod bilgisi alınırken hata oluştu: " ++ m]) ∧
    (∀ pod : Pod,
        checkSpecificPod (.ok pod) nsName podName =
          ["Pod " ++ podName ++ " namespace " ++ nsName ++ " içinde bulundu",
           "Pod durumu: " ++ pod.statusPhase,
           "Pod IP: " ++ pod.podIP,
           "Node: " ++ pod.nodeName]) := by
  refine ⟨?_, ?_, ?_, ?_⟩
  · intro e he
    simp [checkSpecificPod, he]
  · intro s hs
    simp [checkSpecificPod, hs]
  · intro m
    rfl
  · intro pod
    rfl

/-- Witness for C3: a not-found status error, a forbidden status error, a
transport error and a success, each at concrete values. -/
theorem C3_specific_pod_inspector_witness :
    checkSpecificPod (.error (.statusError ⟨"NotFound", 404, "pod not found"⟩)) "default" "p1" =
      ["Pod " ++ "p1" ++ " namespace " ++ "default" ++ " içinde bulunamadı"] ∧
    checkSpecificPod (.error (.statusError ⟨"Forbidden", 403, "denied"⟩)) "default" "p1" =
      ["Pod " ++ "p1" ++ " namespace " ++ "default" ++ " içinde alınan hata: " ++ "denied"] ∧
    checkSpecificPod (.error (.otherError "connection refused")) "default" "p1" =
      ["Pod bilgisi alınırken hata oluştu: " ++ "connection refused"] ∧
    checkSpecificPod (.ok ⟨"p1", "default", "Running", "10.0.0.5", "n1"⟩) "default" "p1" =
      ["Pod " ++ "p1" ++ " namespace " ++ "default" ++ " içinde bulundu",
       "Pod durumu: " ++ "Running",
       "Pod IP: " ++ "10.0.0.5",
       "Node: " ++ "n1"] :=
  ⟨(C3_specific_pod_inspector "default" "p1").1 _ (by decide),
   (C3_specific_pod_inspector "default" "p1").2.1 ⟨"Forbidden", 403, "denied"⟩ (by decide),
   (C3_specific_pod_inspector "default" "p1").2.2.1 "connection refused",
   (C3_specific_pod_inspector "default" "p1").2.2.2 ⟨"p1", "default", "Running", "10.0.0.5", "n1"⟩⟩

/-- C4: the node counter prints the distinguished no-nodes message (and not
any numeric count line) when zero nodes are returned, and the numeric
count line when at least one node is returned. -/
theorem C4_node_counter (nodes : List KNode) :
    (nodes.length = 0 →
        checkNodes (.ok nodes) = [NoNodesInKubernetesError] ∧
        (∀ n : Nat, checkNodes (.ok nodes) ≠ ["Cluster'da " ++ toString n ++ " node var"])) ∧
    (1 ≤ nodes.length →
        checkNodes (.ok nodes) = ["Cluster'da " ++ toString nodes.length ++ " node var"]) := by
  constructor
  · intro h0
    have hnil : nodes = [] := List.length_eq_zero.mp h0
    subst hnil
    refine ⟨rfl, ?_⟩
    intro n hEq
    have h1 : NoNodesInKubernetesError = "Cluster'da " ++ toString n ++ " node var" := by
      simpa [checkNodes] using hEq
    exact str_head_ne 'K' 'C' (by decide)
      (strAppend_data_head _ _ 'C' (strAppend_data_head _ _ 'C' (by decide))) (by decide) h1
  · intro h1
    have hne : nodes.length ≠ 0 := by omega
    simp [checkNodes, hne]

/-- Witness for C4 at an empty and a one-element node list. -/
theorem C4_node_counter_witness :
    checkNodes (.ok ([] : List KNode)) = [NoNodesInKubernetesError] ∧
    checkNodes (.ok [(⟨"n1"⟩ : KNode)]) = ["Cluster'da " ++ toString 1 ++ " node var"] :=
  ⟨((C4_node_counter []).1 rfl).1, (C4_node_counter [⟨"n1"⟩]).2 (by decide)⟩

/-- On any error result, the specific-pod check prints exactly one line
(each of its three error branches is a single line). -/
theorem checkSpecificPod_error_length (e : K8sError) (nsName podName : String) :
    (checkSpecificPod (.error e) nsName podName).length = 1 := by
  cases e with
  | statusError s =>
      cases hb : isNotFound (.statusError s) with
      | true => simp [checkSpecificPod, hb]
      | false => simp [checkSpecificPod, hb]
  | otherError m => rfl

/-- C5: whichever single query of an iteration fails (any of the five list
queries or the specific-pod get), that query prints one diagnostic line
(for the list queries: containing the underlying error text), its own
report line is absent for that iteration, and the iteration output still
contains every other step in its fixed order, ending with the separator. -/
theorem C5_failure_isolated (c : ClusterResponses) (e : K8sError) (nsName podName : String) :
    (c.listPods = .error e →
        checkPods c.listPods = ["Pod'ları listelerken hata oluştu: " ++ e.errorString] ∧
        (∀ n : Nat, ("Cluster'da " ++ toString n ++ " pod var") ∉ checkPods c.listPods) ∧
        iterationLines c nsName podName =
          ["Cluster Durumu:"]
            ++ ["Pod'ları listelerken hata oluştu: " ++ e.errorString]
            ++ checkNamespaces c.listNamespaces
            ++ checkNodes c.listNodes
            ++ checkEvents c.listEvents
            ++ checkPersistentVolumeClaims c.listPVCs
            ++ ["", "Detaylı pod kontrolü:"]
            ++ checkSpecificPod (c.getPod nsName podName) nsName podName
            ++ ["", "-----------------------------------"]) ∧
    (c.listNamespaces = .error e →
        checkNamespaces c.listNamespaces =
          ["Namespace'leri listelerken hata oluştu: " ++ e.errorString] ∧
        (∀ n : Nat,
            ("Cluster'da " ++ toString n ++ " namespace var") ∉ checkNamespaces c.listNamespaces) ∧
        iterationLines c nsName podName =
          ["Cluster Durumu:"]
            ++ checkPods c.listPods
            ++ ["Namespace'leri listelerken hata oluştu: " ++ e.errorString]
            ++ checkNodes c.listNodes
            ++ checkEvents c.listEvents
            ++ checkPersistentVolumeClaims c.listPVCs
            ++ ["", "Detaylı pod kontrolü:"]
            ++ checkSpecificPod (c.getPod nsName podName) nsName podName
            ++ ["", "-----------------------------------"]) ∧
    (c.listNodes = .error e →
        checkNodes c.listNodes = ["Node'ları listelerken hata oluştu: " ++ e.errorString] ∧
        (∀ n : Nat, ("Cluster'da " ++ toString n ++ " node var") ∉ checkNodes c.listNodes) ∧
        NoNodesInKubernetesError ∉ checkNodes c.listNodes ∧
        iterationLines c nsName podName =
          ["Cluster Durumu:"]
            ++ checkPods c.listPods
            ++ checkNamespaces c.listNamespaces
            ++ ["Node'ları listelerken hata oluştu: " ++ e.errorString]
            ++ checkEvents c.listEvents
            ++ checkPersistentVolumeClaims c.listPVCs
            ++ ["", "Detaylı pod kontrolü:"]
            ++ checkSpecificPod (c.getPod nsName podName) nsName podName
            ++ ["", "-----------------------------------"]) ∧
    (c.listEvents = .error e →
        checkEvents c.listEvents = ["Event'leri listelerken hata oluştu: " ++ e.errorString] ∧
        (∀ n : Nat, ("Son 1 saatte " ++ toString n ++ " event var") ∉ checkEvents c.listEvents) ∧
        iterationLines c nsName podName =
          ["Cluster Durumu:"]
            ++ checkPods c.listPods
            ++ checkNamespaces c.listNamespaces
            ++ checkNodes c.listNodes
            ++ ["Event'leri listelerken hata oluştu: " ++ e.errorString]
            ++ checkPersistentVolumeClaims c.listPVCs
            ++ ["", "Detaylı pod kontrolü:"]
            ++ checkSpecificPod (c.getPod nsName podName) nsName podName
            ++ ["", "-----------------------------------"]) ∧
    (c.listPVCs = .error e →
        checkPersistentVolumeClaims c.listPVCs =
          ["PersistentVolumeClaim'leri listelerken hata oluştu: " ++ e.errorString] ∧
        (∀ n : Nat,
            ("Cluster'da " ++ toString n ++ " PersistentVolumeClaim var") ∉
              checkPersistentVolumeClaims c.listPVCs) ∧
        iterationLines c nsName podName =
          ["Cluster Durumu:"]
            ++ checkPods c.listPods
            ++ checkNamespaces c.listNamespaces
            ++ checkNodes c.listNodes
            ++ checkEvents c.listEvents
            ++ ["PersistentVolumeClaim'leri listelerken hata oluştu: " ++ e.errorString]
            ++ ["", "Detaylı pod kontrolü:"]
            ++ checkSpecificPod (c.getPod nsName podName) nsName podName
            ++ ["", "-----------------------------------"]) ∧
    (c.getPod nsName podName = .error e →
        (checkSpecificPod (c.getPod nsName podName) nsName podName).length = 1 ∧
        (∀ p : Pod, checkSpecificPod (c.getPod nsName podName) nsName podName ≠
            checkSpecificPod (.ok p) nsName podName) ∧
        (∀ m : String, e = .otherError m →
            checkSpecificPod (c.getPod nsName podName) nsName podName =
              ["Pod bilgisi alınırken hata oluştu: " ++ m]) ∧
        iterationLines c nsName podName =
          ["Cluster Durumu:"]
            ++ checkPods c.listPods
            ++ checkNamespaces c.listNamespaces
            ++ checkNodes c.listNodes
            ++ checkEvents c.listEvents
            ++ checkPersistentVolumeClaims c.listPVCs
            ++ ["", "Detaylı pod kontrolü:"]
            ++ checkSpecificPod (.error e) nsName podName
            ++ ["", "-----------------------------------"]) := by
  refine ⟨?_, ?_, ?_, ?_, ?_, ?_⟩
  · intro hq
    have hD : checkPods c.listPods = ["Pod'ları listelerken hata oluştu: " ++ e.errorString] := by
      rw [hq]
      rfl
    refine ⟨hD, ?_, ?_⟩
    · intro n
      rw [hD]
      simp only [List.mem_singleton]
      exact str_head_ne 'C' 'P'
        (strAppend_data_head _ _ 'C' (strAppend_data_head _ _ 'C' (by decide)))
        (strAppend_data_head _ _ 'P' (by decide)) (by decide)
    · rw [iterationLines, hD]
  · intro hq
    have hD : checkNamespaces c.listNamespaces =
        ["Namespace'leri listelerken hata oluştu: " ++ e.errorString] := by
      rw [hq]
      rfl
    refine ⟨hD, ?_, ?_⟩
    · intro n
      rw [hD]
      simp only [List.mem_singleton]
      exact str_head_ne 'C' 'N'
        (strAppend_data_head _ _ 'C' (strAppend_data_head _ _ 'C' (by decide)))
        (strAppend_data_head _ _ 'N' (by decide)) (by decide)
    · rw [iterationLines, hD]
  · intro hq
    have hD : checkNodes c.listNodes =
        ["Node'ları listelerken hata oluştu: " ++ e.errorString] := by
      rw [hq]
      rfl
    refine ⟨hD, ?_, ?_, ?_⟩
    · intro n
      rw [hD]
      simp only [List.mem_singleton]
      exact str_head_ne 'C' 'N'
        (strAppend_data_head _ _ 'C' (strAppend_data_head _ _ 'C' (by decide)))
        (strAppend_data_head _ _ 'N' (by decide)) (by decide)
    · rw [hD]
      simp only [List.mem_singleton]
      exact str_head_ne 'K' 'N' (by decide)
        (strAppend_data_head _ _ 'N' (by decide)) (by decide)
    · rw [iterationLines, hD]
  · intro hq
    have hD : checkEvents c.listEvents =
        ["Event'leri listelerken hata oluştu: " ++ e.errorString] := by
      rw [hq]
      rfl
    refine ⟨hD, ?_, ?_⟩
    · intro n
      rw [hD]
      simp only [List.mem_singleton]
      exact str_head_ne 'S' 'E'
        (strAppend_data_head _ _ 'S' (strAppend_data_head _ _ 'S' (by decide)))
        (strAppend_data_head _ _ 'E' (by decide)) (by decide)
    · rw [iterationLines, hD]
  · intro hq
    have hD : checkPersistentVolumeClaims c.listPVCs =
        ["PersistentVolumeClaim'leri listelerken hata oluştu: " ++ e.errorString] := by
      rw [hq]
      rfl
    refine ⟨hD, ?_, ?_⟩
    · intro n
      rw [hD]
      simp only [List.mem_singleton]
      exact str_head_ne 'C' 'P'
        (strAppend_data_head _ _ 'C' (strAppend_data_head _ _ 'C' (by decide)))
        (strAppend_data_head _ _ 'P' (by decide)) (by decide)
    · rw [iterationLines, hD]
  · intro hq
    rw [hq]
    refine ⟨checkSpecificPod_error_length e nsName podName, ?_, ?_, ?_⟩
    · intro p hp
      have hl := congrArg List.length hp
      rw [checkSpecificPod_error_length] at hl
      simp [checkSpecificPod] at hl
    · intro m hm
      subst hm
      rfl
    · rw [iterationLines, hq]

/-- Witness for C5: six concrete snapshots, one per failing query. -/
theorem C5_failure_isolated_witness :
    checkPods failingPodsResponses.listPods =
      ["Pod'ları listelerken hata oluştu: " ++
        (K8sError.otherError "connection refused").errorString] ∧
    checkNamespaces failingNamespacesResponses.listNamespaces =
      ["Namespace'leri listelerken hata oluştu: " ++
        (K8sError.otherError "connection refused").errorString] ∧
    checkNodes failingNodesResponses.listNodes =
      ["Node'ları listelerken hata oluştu: " ++
        (K8sError.otherError "connection refused").errorString] ∧
    checkEvents failingEventsResponses.listEvents =
      ["Event'leri listelerken hata oluştu: " ++
        (K8sError.otherError "connection refused").errorString] ∧
    checkPersistentVolumeClaims failingPVCsResponses.listPVCs =
      ["PersistentVolumeClaim'leri listelerken hata oluştu: " ++
        (K8sError.otherError "connection refused").errorString] ∧
    (checkSpecificPod (failingGetResponses.getPod "default" "p1") "default" "p1").length = 1 :=
  ⟨((C5_failure_isolated failingPodsResponses (.otherError "connection refused")
      "default" "p1").1 rfl).1,
   ((C5_failure_isolated failingNamespacesResponses (.otherError "connection refused")
      "default" "p1").2.1 rfl).1,
   ((C5_failure_isolated failingNodesResponses (.otherError "connection refused")
      "default" "p1").2.2.1 rfl).1,
   ((C5_failure_isolated failingEventsResponses (.otherError "connection refused")
      "default" "p1").2.2.2.1 rfl).1,
   ((C5_failure_isolated failingPVCsResponses (.otherError "connection refused")
      "default" "p1").2.2.2.2.1 rfl).1,
   ((C5_failure_isolated failingGetResponses (.otherError "timeout")
      "default" "p1").2.2.2.2.2 rfl).1⟩

/-- C6: the events counter reports the length of the full, unfiltered event
list; the list call carries the zero list options (no selector, hence no
time filter), and the reported count can differ from the count of events
in the last hour. -/
theorem C6_events_unfiltered :
    (∀ events : List KEvent,
        checkEvents (.ok events) =
          ["Son 1 saatte " ++ toString events.length ++ " event var"]) ∧
    (iterationOps defaultNamespace defaultPodName)[3]? =
      some (.listAll "events" "" emptyListOptions) ∧
    (∃ (events : List KEvent) (now : Int),
        (specEventsInLastHour now events).length ≠ events.length) := by
  refine ⟨fun _ => rfl, rfl, ⟨[⟨"e1", 0⟩], 100000, by decide⟩⟩

/-- C7: every API operation an iteration issues is a read (a list or a
get); no create, update or delete operation ever appears. -/
theorem C7_read_only (nsName podName : String) :
    (iterationOps nsName podName).all ApiOp.isRead = true := by
  rfl

/-- C8: a failure of either bootstrap step (config parsing or client
construction) yields the panic with that error message and no loop
iteration output at all, for any number of intended iterations. -/
theorem C8_bootstrap_failure_fatal
    (newForConfig : RestConfig → Except String ClusterResponses)
    (n : Nat) (msg : String) :
    runMain (.error msg) newForConfig n = ⟨some msg, []⟩ ∧
    (∀ cfg : RestConfig, newForConfig cfg = .error msg →
        runMain (.ok cfg) newForConfig n = ⟨some msg, []⟩) := by
  refine ⟨rfl, fun cfg h => ?_⟩
  simp [runMain, h]

/-- Witness for C8: a bad config and a refused connection, with five
intended iterations. -/
theorem C8_bootstrap_failure_fatal_witness :
    runMain (.error "bad config") (fun _ => .error "connection refused") 5 =
      ⟨some "bad config", []⟩ ∧
    runMain (.ok ⟨"https://host"⟩) (fun _ => .error "connection refused") 5 =
      ⟨some "connection refused", []⟩ :=
  ⟨(C8_bootstrap_failure_fatal (fun _ => .error "connection refused") 5 "bad config").1,
   (C8_bootstrap_failure_fatal (fun _ => .error "connection refused") 5 "connection refused").2
     ⟨"https://host"⟩ rfl⟩

/-- C9: an iteration's output is a function of the collaborator snapshot:
equal snapshots give equal reports, and N iterations over an unchanged
snapshot give N identical reports. -/
theorem C9_iteration_deterministic (c c' : ClusterResponses) (nsName podName : String)
    (n : Nat) (h : c = c') :
    iterationLines c nsName podName = iterationLines c' nsName podName ∧
    runLoop (List.replicate n c) nsName podName =
      List.replicate n (iterationLines c nsName podName) := by
  subst h
  exact ⟨rfl, List.map_replicate ..⟩

/-- Witness for C9 at the sample snapshot and three iterations. -/
theorem C9_iteration_deterministic_witness :
    iterationLines sampleResponses defaultNamespace defaultPodName =
      iterationLines sampleResponses defaultNamespace defaultPodName ∧
    runLoop (List.replicate 3 sampleResponses) defaultNamespace defaultPodName =
      List.replicate 3 (iterationLines sampleResponses defaultNamespace defaultPodName) :=
  C9_iteration_deterministic sampleResponses sampleResponses defaultNamespace defaultPodName 3 rfl

/-- C10: the not-found test precedes the status-error test: a structured
status error satisfying the not-found condition prints only the not-found
message, and the structured-error message is printed exactly for status
errors that are not a not-found condition. -/
theorem C10_notfound_precedence (nsName podName : String) (s : Status) :
    (isNotFound (.statusError s) = true →
        checkSpecificPod (.error (.statusError s)) nsName podName =
          ["Pod " ++ podName ++ " namespace " ++ nsName ++ " içinde bulunamadı"]) ∧
    (checkSpecificPod (.error (.statusError s)) nsName podName =
        ["Pod " ++ podName ++ " namespace " ++ nsName ++ " içinde alınan hata: " ++ s.message]
      ↔ isNotFound (.statusError s) = false) := by
  constructor
  · intro h
    simp [checkSpecificPod, h]
  · constructor
    · intro hEq
      rcases Bool.eq_false_or_eq_true (isNotFound (.statusError s)) with h | h
      · exfalso
        have h1 : checkSpecificPod (.error (.statusError s)) nsName podName =
            ["Pod " ++ podName ++ " namespace " ++ nsName ++ " içinde bulunamadı"] := by
          simp [checkSpecificPod, h]
        rw [h1] at hEq
        have hAB : "Pod " ++ podName ++ " namespace " ++ nsName ++ " içinde bulunamadı" =
            "Pod " ++ podName ++ " namespace " ++ nsName ++ " içinde alınan hata: " ++ s.message := by
          simpa using hEq
        have h2 : ("Pod " ++ podName ++ " namespace " ++ nsName) ++ " içinde bulunamadı" =
            ("Pod " ++ podName ++ " namespace " ++ nsName) ++
              (" içinde alınan hata: " ++ s.message) := by
          rw [← strAppend_assoc]
          exact hAB
        have h3 := strAppend_left_cancel h2
        have e1 : (" içinde bulunamadı" : String) = " içinde " ++ "bulunamadı" := by decide
        have e2 : (" içinde alınan hata: " : String) = " içinde " ++ "alınan hata: " := by decide
        rw [e1, e2, strAppend_assoc] at h3
        have h4 := strAppend_left_cancel h3
        exact str_head_ne 'b' 'a' (by decide)
          (strAppend_data_head _ _ 'a' (by decide)) (by decide) h4
      · exact h
    · intro h
      simp [checkSpecificPod, h]

/-- Witness for C10: a not-found status error and a forbidden status
error, at concrete values. -/
theorem C10_notfound_precedence_witness :
    checkSpecificPod (.error (.statusError ⟨"NotFound", 404, "pod not found"⟩)) "default" "p2" =
      ["Pod " ++ "p2" ++ " namespace " ++ "default" ++ " içinde bulunamadı"] ∧
    checkSpecificPod (.error (.statusError ⟨"Forbidden", 403, "denied"⟩)) "default" "p2" =
      ["Pod " ++ "p2" ++ " namespace " ++ "default" ++ " içinde alınan hata: " ++ "denied"] :=
  ⟨(C10_notfound_precedence "default" "p2" ⟨"NotFound", 404, "pod not found"⟩).1 (by decide),
   (C10_notfound_precedence "default" "p2" ⟨"Forbidden", 403, "denied"⟩).2.mpr (by decide)⟩

end ClusterReporter
